import Mathlib

/-!
Verification of the Crumb UI kiosk (`raspad_main.py`) against its
natural-language specification.

The Python program is single-threaded and event-driven (tkinter); we embed
the state it mutates and the handlers that mutate it as pure Lean functions:

* the screen registry / navigation controller (`show_screen`, `safe_navigate`);
* the hub animation loops (`animate_background`, `animate_orbs`,
  `animate_central_core`) together with the `root.after` self-rescheduling
  discipline, modelled as a step relation on a scheduler state;
* the exit-gesture handler (`handle_click`, `reset_exit_counter`,
  `graceful_exit`) with `root.after(2000, ...)` reset callbacks modelled as a
  multiset of pending fire times on a discrete millisecond clock;
* the audio helper `play_sound` with the filesystem and the pygame calls
  abstracted as boolean oracles;
* the colour helper `adjust_color`, with Python `str` embedded as `List Char`
  and Python floats embedded as exact rationals.

Python's `math.sin` / `math.cos` are transcendental; the embeddings take the
trigonometric functions as oracle parameters `ℚ → ℚ`, and every theorem that
needs them holds for an arbitrary oracle (the bounds proved never depend on
the oracle's values).
-/

/-! ## Navigation controller (`show_screen`, `safe_navigate`) -/

/-- The keys of `self.screens`, created once at startup by
`create_all_screens` (a screen whose creator fails is replaced by an error
screen stored under the same key, so the key set is always exactly this). -/
def knownScreens : List String := ["hub", "elemental", "soundboard", "archetype", "settings"]

/-- Navigation-relevant application state: which registry screens are
currently packed (visible), the `current_screen` field, and the
`last_activity` timestamp. -/
structure NavState where
  visible : List String
  current_screen : String
  last_activity : Nat
deriving DecidableEq, Repr

/-- `show_screen` (raspad_main.py:692-701): `pack_forget` every screen in the
registry, then pack `screen_name` if it is a key of `self.screens` and
`'hub'` otherwise, and record it in `current_screen`. -/
def show_screen (st : NavState) (screen_name : String) : NavState :=
  let hidden := st.visible.filter (fun s => !(knownScreens.contains s))
  let target := if knownScreens.contains screen_name then screen_name else "hub"
  { st with visible := hidden ++ [target], current_screen := target }

/-- `safe_navigate` (raspad_main.py:682-690): call `show_screen`, then stamp
`last_activity`. `show_screen` is total in this embedding (as in the source:
its only lookup is guarded by the membership test with the `'hub'`
fallback), so the `except` arm is dead. -/
def safe_navigate (now : Nat) (st : NavState) (screen_name : String) : NavState :=
  let st := show_screen st screen_name
  { st with last_activity := now }

/-- Every screen the navigation controller ever packs is a registry screen. -/
def VisiblesKnown (st : NavState) : Prop :=
  ∀ s ∈ st.visible, knownScreens.contains s = true

theorem show_screen_visible_eq (st : NavState) (name : String)
    (h : VisiblesKnown st) :
    (show_screen st name).visible =
      [if knownScreens.contains name then name else "hub"] := by
  have hf : st.visible.filter (fun s => !(knownScreens.contains s)) = [] := by
    rw [List.filter_eq_nil_iff]
    intro s hs
    simpa using h s hs
  simp only [show_screen]
  rw [hf]
  simp

/-- C1: navigating to an identifier outside the known set lands on the hub
screen, which is then the (single) visible screen and the current screen;
the embedding is a total function, so no error reaches the caller. -/
theorem unknown_target_falls_back_to_hub (st : NavState) (name : String)
    (hunk : knownScreens.contains name = false)
    (h : VisiblesKnown st) :
    (show_screen st name).current_screen = "hub" ∧
      (show_screen st name).visible = ["hub"] := by
  have hm : ¬ name ∈ knownScreens := by simpa using hunk
  constructor
  · simp [show_screen, hm]
  · rw [show_screen_visible_eq st name h]
    simp [hm]

theorem unknown_target_falls_back_to_hub_witness :
    knownScreens.contains "nonexistent" = false ∧
      (show_screen ⟨["soundboard"], "soundboard", 0⟩ "nonexistent").current_screen = "hub" ∧
      (show_screen ⟨["soundboard"], "soundboard", 0⟩ "nonexistent").visible = ["hub"] :=
  ⟨by decide,
    unknown_target_falls_back_to_hub ⟨["soundboard"], "soundboard", 0⟩ "nonexistent"
      (by decide) (by intro s hs; fin_cases hs; decide)⟩

/-- C2: after any `show_screen` call (from any state whose packed screens
are registry screens), exactly one registered screen is visible and
`current_screen` names exactly that screen; the invariant `VisiblesKnown`
is re-established, so it holds before and after every navigate call. -/
theorem show_screen_exactly_one_visible (st : NavState) (name : String)
    (h : VisiblesKnown st) :
    (show_screen st name).visible = [(show_screen st name).current_screen] ∧
      knownScreens.contains (show_screen st name).current_screen = true ∧
      VisiblesKnown (show_screen st name) := by
  have hv := show_screen_visible_eq st name h
  have hc : (show_screen st name).current_screen =
      (if knownScreens.contains name then name else "hub") := by
    simp [show_screen]
  have hcur : knownScreens.contains
      (if knownScreens.contains name = true then name else "hub") = true := by
    by_cases hk : name ∈ knownScreens
    · simp [hk]
    · simp [hk]
      decide
  refine ⟨by rw [hv, hc], ?_, ?_⟩
  · rw [hc]
    exact hcur
  · intro s hs
    rw [hv] at hs
    rcases List.mem_singleton.mp hs with rfl
    exact hcur

theorem show_screen_exactly_one_visible_witness :
    (show_screen ⟨["hub"], "hub", 0⟩ "elemental").visible =
        [(show_screen ⟨["hub"], "hub", 0⟩ "elemental").current_screen] ∧
      knownScreens.contains (show_screen ⟨["hub"], "hub", 0⟩ "elemental").current_screen = true :=
  ⟨(show_screen_exactly_one_visible ⟨["hub"], "hub", 0⟩ "elemental"
      (by intro s hs; fin_cases hs; decide)).1,
    (show_screen_exactly_one_visible ⟨["hub"], "hub", 0⟩ "elemental"
      (by intro s hs; fin_cases hs; decide)).2.1⟩

/-! ## Hub animation loops as a scheduler state machine (C4)

`start_hub_animations` (raspad_main.py:313-317) is called exactly once, from
`create_hub_screen` at startup; each `animate_*` loop ends its tick with
`if hasattr(self, 'hub_canvas') and self.current_screen == 'hub':
self.root.after(period, <itself>)`. `hub_canvas` exists from creation on, so
the guard is just the `current_screen` test. `show_screen` touches neither
the loops nor the `after` queue. We model whether each loop has a pending
`after` callback, and the two kinds of events that affect that: a navigation
and a pending tick firing. -/

/-- Scheduler-relevant state: the current screen and, for each of the three
hub animation loops, whether a `root.after` callback of that loop is
pending. At startup all three are pending (`start_hub_animations` ran each
loop once on the hub, so each rescheduled itself). -/
structure HubAnimState where
  current_screen : String
  bgPending : Bool
  orbPending : Bool
  corePending : Bool
deriving DecidableEq, Repr

inductive HubEvent where
  | nav : String → HubEvent
  | bgTick : HubEvent
  | orbTick : HubEvent
  | coreTick : HubEvent
deriving DecidableEq, Repr

/-- One scheduler step. A `nav` event is `show_screen`'s effect on
`current_screen` (raspad_main.py:692-701): it does not create, cancel or
resume any loop. A `*Tick` event is the pending callback of that loop
firing: the callback is consumed, the tick body runs, and the loop
reschedules itself iff `current_screen == 'hub'` at that moment
(raspad_main.py:346-347, 379-380, 399-400). -/
def hubStep (st : HubAnimState) : HubEvent → HubAnimState
  | .nav n =>
      { st with current_screen := if knownScreens.contains n then n else "hub" }
  | .bgTick =>
      if st.bgPending then { st with bgPending := st.current_screen == "hub" } else st
  | .orbTick =>
      if st.orbPending then { st with orbPending := st.current_screen == "hub" } else st
  | .coreTick =>
      if st.corePending then { st with corePending := st.current_screen == "hub" } else st

def hubRun (st : HubAnimState) (evs : List HubEvent) : HubAnimState :=
  evs.foldl hubStep st

/-- The state right after startup: hub shown, all three loops pending. -/
def hubAnimInit : HubAnimState :=
  { current_screen := "hub", bgPending := true, orbPending := true, corePending := true }

/-- C4 counterexample: navigate away from the hub, let each loop's pending
tick fire (each sees `current_screen ≠ 'hub'` and does not reschedule), then
show the hub again. Contrary to the claim, no animation loop is recreated:
no loop has a pending callback in the final state, although the hub is the
current screen again. -/
theorem hub_revisit_does_not_restart_loops :
    (hubRun hubAnimInit
        [HubEvent.nav "elemental", HubEvent.bgTick, HubEvent.orbTick,
          HubEvent.coreTick, HubEvent.nav "hub"]).current_screen = "hub" ∧
      (hubRun hubAnimInit
        [HubEvent.nav "elemental", HubEvent.bgTick, HubEvent.orbTick,
          HubEvent.coreTick, HubEvent.nav "hub"]).bgPending = false ∧
      (hubRun hubAnimInit
        [HubEvent.nav "elemental", HubEvent.bgTick, HubEvent.orbTick,
          HubEvent.coreTick, HubEvent.nav "hub"]).orbPending = false ∧
      (hubRun hubAnimInit
        [HubEvent.nav "elemental", HubEvent.bgTick, HubEvent.orbTick,
          HubEvent.coreTick, HubEvent.nav "hub"]).corePending = false := by
  decide

theorem hubStep_bg_false (st : HubAnimState) (e : HubEvent)
    (hp : st.bgPending = false) : (hubStep st e).bgPending = false := by
  cases e <;> simp only [hubStep] <;> (try split) <;> simp_all

theorem hubStep_orb_false (st : HubAnimState) (e : HubEvent)
    (hp : st.orbPending = false) : (hubStep st e).orbPending = false := by
  cases e <;> simp only [hubStep] <;> (try split) <;> simp_all

theorem hubStep_core_false (st : HubAnimState) (e : HubEvent)
    (hp : st.corePending = false) : (hubStep st e).corePending = false := by
  cases e <;> simp only [hubStep] <;> (try split) <;> simp_all

theorem hubRun_bg_false (evs : List HubEvent) :
    ∀ st : HubAnimState, st.bgPending = false → (hubRun st evs).bgPending = false := by
  induction evs with
  | nil => intro st hp; simpa [hubRun] using hp
  | cons e rest ih => intro st hp; exact ih _ (hubStep_bg_false st e hp)

theorem hubRun_orb_false (evs : List HubEvent) :
    ∀ st : HubAnimState, st.orbPending = false → (hubRun st evs).orbPending = false := by
  induction evs with
  | nil => intro st hp; simpa [hubRun] using hp
  | cons e rest ih => intro st hp; exact ih _ (hubStep_orb_false st e hp)

theorem hubRun_core_false (evs : List HubEvent) :
    ∀ st : HubAnimState, st.corePending = false → (hubRun st evs).corePending = false := by
  induction evs with
  | nil => intro st hp; simpa [hubRun] using hp
  | cons e rest ih => intro st hp; exact ih _ (hubStep_core_false st e hp)

/-- C4 amended: a tick firing while the hub is not current does not
reschedule its loop, and a stopped loop stays stopped forever — no event
(in particular no later `show_screen('hub')`) ever makes it pending again,
because `start_hub_animations` runs only once at startup. -/
theorem stopped_loops_stay_stopped (st : HubAnimState) (evs : List HubEvent)
    (hne : st.current_screen ≠ "hub") :
    (hubStep st HubEvent.bgTick).bgPending = false ∧
      (hubStep st HubEvent.orbTick).orbPending = false ∧
      (hubStep st HubEvent.coreTick).corePending = false ∧
      (st.bgPending = false → (hubRun st evs).bgPending = false) ∧
      (st.orbPending = false → (hubRun st evs).orbPending = false) ∧
      (st.corePending = false → (hubRun st evs).corePending = false) := by
  have hne' : (st.current_screen == "hub") = false := by
    simpa using hne
  refine ⟨?_, ?_, ?_, hubRun_bg_false evs st, hubRun_orb_false evs st,
    hubRun_core_false evs st⟩
  · by_cases hp : st.bgPending <;> simp [hubStep, hp, hne']
  · by_cases hp : st.orbPending <;> simp [hubStep, hp, hne']
  · by_cases hp : st.corePending <;> simp [hubStep, hp, hne']

theorem stopped_loops_stay_stopped_witness :
    (⟨"elemental", true, true, true⟩ : HubAnimState).current_screen ≠ "hub" ∧
      (hubStep ⟨"elemental", true, true, true⟩ HubEvent.bgTick).bgPending = false ∧
      (hubRun ⟨"elemental", false, true, true⟩ [HubEvent.nav "hub"]).bgPending = false :=
  ⟨by decide,
    (stopped_loops_stay_stopped ⟨"elemental", true, true, true⟩ [] (by decide)).1,
    (stopped_loops_stay_stopped ⟨"elemental", false, true, true⟩ [HubEvent.nav "hub"]
      (by decide)).2.2.2.1 (by decide)⟩

/-! ## Background particles (`animate_background`, C3)

`create_mystical_background` (raspad_main.py:205-242) creates 25 elements
with `x = randint(50, 974)`, `y = randint(50, 550)`,
`dx = uniform(-0.5, 0.5)`, `dy = uniform(-0.3, 0.3)`,
`phase = uniform(0, 6.28)`. Each `animate_background` tick
(raspad_main.py:319-350) moves each element and then wraps it. Python
floats are embedded as exact rationals; `math.sin` is an oracle `ℚ → ℚ`
(the wrap logic never inspects its value, so every bound below holds for
the true sine in particular). -/

structure BgElement where
  x : ℚ
  y : ℚ
  dx : ℚ
  dy : ℚ
  phase : ℚ
deriving DecidableEq, Repr

/-- One `animate_background` update of one element (raspad_main.py:325-334),
in source order: `x += dx`; `y += dy + sin(phase) * 0.2`; `phase += 0.02`;
then the four independent wrap tests `if x < 0: x = 1024`,
`if x > 1024: x = 0`, `if y < 0: y = 600`, `if y > 600: y = 0`. -/
def updateElement (sinF : ℚ → ℚ) (e : BgElement) : BgElement :=
  let x := e.x + e.dx
  let y := e.y + e.dy + sinF e.phase * (2 / 10)
  let phase := e.phase + 2 / 100
  let x := if x < 0 then 1024 else x
  let x := if x > 1024 then 0 else x
  let y := if y < 0 then 600 else y
  let y := if y > 600 then 0 else y
  { x := x, y := y, dx := e.dx, dy := e.dy, phase := phase }

/-- `n` background ticks applied to one element. -/
def iterateBg (sinF : ℚ → ℚ) : Nat → BgElement → BgElement
  | 0, e => e
  | n + 1, e => iterateBg sinF n (updateElement sinF e)

/-- The ranges `create_mystical_background` draws the initial fields from. -/
def CreatedElement (e : BgElement) : Prop :=
  50 ≤ e.x ∧ e.x ≤ 974 ∧ 50 ≤ e.y ∧ e.y ≤ 550

/-- The two sequential wrap tests applied to one coordinate: the value
`if (if v < 0 then b else v) > b then 0 else (if v < 0 then b else v)`
always lands in the closed interval `[0, b]`. -/
theorem wrapPair_bounds (b v : ℚ) (hb : 0 ≤ b) :
    0 ≤ (if (if v < 0 then b else v) > b then 0 else (if v < 0 then b else v)) ∧
      (if (if v < 0 then b else v) > b then 0 else (if v < 0 then b else v)) ≤ b := by
  by_cases h1 : v < 0
  · simp only [if_pos h1]
    have hbb : ¬ b > b := lt_irrefl b
    simp only [if_neg hbb]
    exact ⟨hb, le_refl b⟩
  · simp only [if_neg h1]
    by_cases h2 : v > b
    · simp only [if_pos h2]
      exact ⟨le_refl 0, hb⟩
    · simp only [if_neg h2]
      exact ⟨le_of_not_lt h1, le_of_not_lt h2⟩

/-- After a single tick the wrapped coordinates always land in the closed
boxes `[0, 1024]` and `[0, 600]`, whatever the element looked like before
and whatever value the sine oracle returned. -/
theorem updateElement_bounds (sinF : ℚ → ℚ) (e : BgElement) :
    0 ≤ (updateElement sinF e).x ∧ (updateElement sinF e).x ≤ 1024 ∧
      0 ≤ (updateElement sinF e).y ∧ (updateElement sinF e).y ≤ 600 := by
  have hx := wrapPair_bounds 1024 (e.x + e.dx) (by norm_num)
  have hy := wrapPair_bounds 600 (e.y + e.dy + sinF e.phase * (2 / 10)) (by norm_num)
  simp only [updateElement]
  exact ⟨hx.1, hx.2.trans (le_refl 1024), hy.1, hy.2⟩

theorem iterateBg_bounds_step (sinF : ℚ → ℚ) (n : Nat) :
    ∀ e : BgElement, 0 ≤ e.x → e.x ≤ 1024 → 0 ≤ e.y → e.y ≤ 600 →
      0 ≤ (iterateBg sinF n e).x ∧ (iterateBg sinF n e).x ≤ 1024 ∧
        0 ≤ (iterateBg sinF n e).y ∧ (iterateBg sinF n e).y ≤ 600 := by
  induction n with
  | zero =>
      intro e h1 h2 h3 h4
      simp only [iterateBg]
      exact ⟨h1, h2, h3, h4⟩
  | succ m ih =>
      intro e h1 h2 h3 h4
      show 0 ≤ (iterateBg sinF m (updateElement sinF e)).x ∧ _
      have hb := updateElement_bounds sinF e
      exact ih _ hb.1 hb.2.1 hb.2.2.1 hb.2.2.2

/-- C3 amended: from any freshly created element, after any number of
background ticks, the wrapped x-coordinate is in the closed interval
`[0, 1024]` and y in `[0, 600]` (the right endpoints are attained, see the
counterexample, so the half-open intervals of the claim are wrong, and the
wrap is an edge reset, not a modulo reduction). The bound holds for every
sine oracle, hence for the true sine. -/
theorem bg_position_bounds (sinF : ℚ → ℚ) (n : Nat) (e : BgElement)
    (h : CreatedElement e) :
    0 ≤ (iterateBg sinF n e).x ∧ (iterateBg sinF n e).x ≤ 1024 ∧
      0 ≤ (iterateBg sinF n e).y ∧ (iterateBg sinF n e).y ≤ 600 := by
  obtain ⟨h1, h2, h3, h4⟩ := h
  exact iterateBg_bounds_step sinF n e (by linarith) (by linarith) (by linarith)
    (by linarith)

theorem bg_position_bounds_witness :
    CreatedElement ⟨50, 300, -1/2, 0, 0⟩ ∧
      0 ≤ (iterateBg (fun _ => 0) 3 ⟨50, 300, -1/2, 0, 0⟩).x ∧
      (iterateBg (fun _ => 0) 3 ⟨50, 300, -1/2, 0, 0⟩).x ≤ 1024 :=
  ⟨⟨by norm_num, by norm_num, by norm_num, by norm_num⟩,
    (bg_position_bounds (fun _ => 0) 3 ⟨50, 300, -1/2, 0, 0⟩
      ⟨by norm_num, by norm_num, by norm_num, by norm_num⟩).1,
    (bg_position_bounds (fun _ => 0) 3 ⟨50, 300, -1/2, 0, 0⟩
      ⟨by norm_num, by norm_num, by norm_num, by norm_num⟩).2.1⟩

theorem iterateBg_succ_right (sinF : ℚ → ℚ) (n : Nat) :
    ∀ e : BgElement,
      iterateBg sinF (n + 1) e = updateElement sinF (iterateBg sinF n e) := by
  induction n with
  | zero => intro e; rfl
  | succ m ih =>
      intro e
      show iterateBg sinF (m + 1) (updateElement sinF e) = _
      rw [ih (updateElement sinF e)]
      rfl

/-- A tick in which neither coordinate crosses an edge: all four wrap tests
are false and the element just drifts. -/
theorem updateElement_no_wrap (sinF : ℚ → ℚ) (e : BgElement)
    (hx0 : 0 ≤ e.x + e.dx) (hx1 : e.x + e.dx ≤ 1024)
    (hy0 : 0 ≤ e.y + e.dy + sinF e.phase * (2 / 10))
    (hy1 : e.y + e.dy + sinF e.phase * (2 / 10) ≤ 600) :
    updateElement sinF e =
      ⟨e.x + e.dx, e.y + e.dy + sinF e.phase * (2 / 10), e.dx, e.dy,
        e.phase + 2 / 100⟩ := by
  simp only [updateElement]
  rw [if_neg (not_lt.mpr hx0), if_neg (not_lt.mpr hx1),
    if_neg (not_lt.mpr hy0), if_neg (not_lt.mpr hy1)]

/-- A tick in which x drifts below 0: the first wrap test fires and resets
x to the opposite edge 1024 (the second test then sees exactly 1024 and
does nothing). -/
theorem updateElement_wrap_left (sinF : ℚ → ℚ) (e : BgElement)
    (hx : e.x + e.dx < 0)
    (hy0 : 0 ≤ e.y + e.dy + sinF e.phase * (2 / 10))
    (hy1 : e.y + e.dy + sinF e.phase * (2 / 10) ≤ 600) :
    updateElement sinF e =
      ⟨1024, e.y + e.dy + sinF e.phase * (2 / 10), e.dx, e.dy,
        e.phase + 2 / 100⟩ := by
  simp only [updateElement]
  rw [if_pos hx, if_neg (by norm_num : ¬ (1024 : ℚ) > 1024),
    if_neg (not_lt.mpr hy0), if_neg (not_lt.mpr hy1)]

/-- An element `create_mystical_background` can produce: `x = 50` is the
minimum of `randint(50, 974)`, `dx = -0.5` the minimum of
`uniform(-0.5, 0.5)`, `y = 300`, `dy = 0`, `phase = 0` all in range. -/
def bgDrifter : BgElement := ⟨50, 300, -1/2, 0, 0⟩

theorem bgDrifter_traj (k : Nat) (hk : k ≤ 100) :
    iterateBg (fun _ => 0) k bgDrifter =
      ⟨50 - (k : ℚ) / 2, 300, -1/2, 0, (k : ℚ) * (2 / 100)⟩ := by
  induction k with
  | zero =>
      show bgDrifter = _
      simp [bgDrifter]
  | succ m ih =>
      have hm : m ≤ 100 := Nat.le_of_succ_le hk
      have hm99 : m ≤ 99 := by omega
      have hmq : (m : ℚ) ≤ 99 := by exact_mod_cast hm99
      rw [iterateBg_succ_right, ih hm]
      rw [updateElement_no_wrap (fun _ => 0) _ (by push_cast; linarith)
        (by push_cast; linarith) (by norm_num) (by norm_num)]
      push_cast
      congr 1 <;> ring

/-- C3 counterexample: the element `bgDrifter` (a state
`create_mystical_background` can create) drifts left half a pixel per tick;
on its 101st tick x becomes `-0.5 < 0` and the wrap `if x < 0: x = 1024`
sets it to exactly `1024`, outside the claimed half-open interval
`[0, 1024)` — and not equal to `(-0.5) mod 1024 = 1023.5`, so the wrap is
an edge reset, not modulo arithmetic. The x-trajectory never consults the
sine oracle (it only perturbs y), so the oracle is instantiated at the
constant 0. -/
theorem bg_x_escapes_half_open_interval :
    CreatedElement bgDrifter ∧
      (iterateBg (fun _ => 0) 101 bgDrifter).x = 1024 ∧
      ¬ (iterateBg (fun _ => 0) 101 bgDrifter).x < 1024 := by
  have h100 := bgDrifter_traj 100 (le_refl 100)
  have h101 : iterateBg (fun _ => 0) 101 bgDrifter =
      updateElement (fun _ => 0) (iterateBg (fun _ => 0) 100 bgDrifter) :=
    iterateBg_succ_right (fun _ => 0) 100 bgDrifter
  rw [h100] at h101
  rw [updateElement_wrap_left (fun _ => 0) _ (by norm_num) (by norm_num)
    (by norm_num)] at h101
  refine ⟨⟨by norm_num [bgDrifter], by norm_num [bgDrifter],
    by norm_num [bgDrifter], by norm_num [bgDrifter]⟩, ?_, ?_⟩
  · rw [h101]
  · rw [h101]
    norm_num

/-! ## Animation ticks with a failing body (C5)

In `animate_background` (raspad_main.py:319-350) and `animate_orbs`
(raspad_main.py:352-383) the whole tick body AND the rescheduling
`self.root.after(period, <itself>)` live inside one `try:` block; the
`except` arm only prints the error. The only calls in a tick body that can
raise are the `self.hub_canvas.coords(...)` pushes to the renderer (the
arithmetic cannot). We model the canvas with a boolean oracle `coordsOk`:
when it is `false` the very first `coords` call of the tick raises, after
the first element's fields were already mutated, and control jumps to
`except` — skipping both the rest of the loop and the `after` call. -/

/-- Outcome of one `animate_background` tick: the element list after the
tick, the energy-line phases, whether the `except` arm printed an error,
and whether `root.after(50, self.animate_background)` ran. -/
structure BgTickOut where
  elements : List BgElement
  linePhases : List ℚ
  logged : Bool
  rescheduled : Bool
deriving Repr

/-- `animate_background` (raspad_main.py:319-350). On a successful body:
every element is updated, every energy-line phase advances by `0.03`, and
the loop reschedules iff `current_screen == 'hub'`. If the canvas raises
(`coordsOk = false`) on the first `coords` call: the first element's fields
were already mutated, nothing later in the `try` body runs, the `except`
arm prints, and in particular the loop is NOT rescheduled (an empty element
list makes no `coords` call, so that body cannot raise). -/
def animate_background (sinF : ℚ → ℚ) (coordsOk : Bool) (current_screen : String)
    (elements : List BgElement) (linePhases : List ℚ) : BgTickOut :=
  if coordsOk then
    { elements := elements.map (updateElement sinF),
      linePhases := linePhases.map (fun p => p + 3 / 100),
      logged := false,
      rescheduled := current_screen == "hub" }
  else
    match elements with
    | [] =>
        { elements := [],
          linePhases := linePhases.map (fun p => p + 3 / 100),
          logged := false,
          rescheduled := current_screen == "hub" }
    | e :: rest =>
        { elements := updateElement sinF e :: rest,
          linePhases := linePhases,
          logged := true,
          rescheduled := false }

/-- A navigation orb's mutable animation state (raspad_main.py:288-294);
`base_x`/`base_y` never change, the two phase accumulators do. -/
structure NavOrb where
  base_x : ℚ
  base_y : ℚ
  phase : ℚ
  pulse_phase : ℚ
deriving DecidableEq, Repr

/-- The per-orb mutations of one `animate_orbs` tick
(raspad_main.py:357-365): `phase += 0.02`, `pulse_phase += 0.05`. -/
def updateOrbPhases (o : NavOrb) : NavOrb :=
  { o with phase := o.phase + 2 / 100, pulse_phase := o.pulse_phase + 5 / 100 }

/-- The geometry pushed to the canvas for one orb
(raspad_main.py:360-365): floating offsets from the advanced phases and the
pulsing scale factor, as `(float_x, float_y, pulse_scale)`. -/
def orbGeometry (sinF cosF : ℚ → ℚ) (o : NavOrb) : ℚ × ℚ × ℚ :=
  (o.base_x + cosF (o.phase * (7 / 10)) * 3,
    o.base_y + sinF o.phase * 8,
    1 + sinF o.pulse_phase * (1 / 10))

structure OrbTickOut where
  orbs : List NavOrb
  pushed : List (ℚ × ℚ × ℚ)
  logged : Bool
  rescheduled : Bool
deriving Repr

/-- `animate_orbs` (raspad_main.py:352-383), with the same try/except
structure as `animate_background`: the `after(30, ...)` call is inside the
`try`, so a canvas failure on the first orb's `coords` call (which happens
after that orb's phases were mutated) leaves the loop unscheduled. -/
def animate_orbs (sinF cosF : ℚ → ℚ) (coordsOk : Bool) (current_screen : String)
    (orbs : List NavOrb) : OrbTickOut :=
  if coordsOk then
    { orbs := orbs.map updateOrbPhases,
      pushed := orbs.map (fun o => orbGeometry sinF cosF (updateOrbPhases o)),
      logged := false,
      rescheduled := current_screen == "hub" }
  else
    match orbs with
    | [] =>
        { orbs := [],
          pushed := [],
          logged := false,
          rescheduled := current_screen == "hub" }
    | o :: rest =>
        { orbs := updateOrbPhases o :: rest,
          pushed := [],
          logged := true,
          rescheduled := false }

/-- C5 counterexample: with the hub current and a non-empty element/orb
list (the hub always has 25 elements and 4 orbs), a tick whose canvas call
raises is caught and logged — but the loop is NOT rescheduled, contrary to
the claim that it reschedules at its normal period anyway. -/
theorem failing_tick_is_not_rescheduled :
    (animate_background (fun _ => 0) false "hub" [bgDrifter] []).logged = true ∧
      (animate_background (fun _ => 0) false "hub" [bgDrifter] []).rescheduled = false ∧
      (animate_orbs (fun _ => 0) (fun _ => 0) false "hub" [⟨392, 270, 0, 0⟩]).logged = true ∧
      (animate_orbs (fun _ => 0) (fun _ => 0) false "hub" [⟨392, 270, 0, 0⟩]).rescheduled = false := by
  refine ⟨rfl, rfl, rfl, rfl⟩

/-- C5 amended: an exception inside a tick body is caught and logged, but
because the `root.after` reschedule sits inside the same `try` block after
the body, a failing tick never reschedules its loop — the loop stops
instead of retrying, whatever screen is current. (A successful tick
reschedules iff the hub is current.) -/
theorem failing_tick_caught_logged_not_rescheduled (sinF cosF : ℚ → ℚ)
    (cur : String) (elements : List BgElement) (linePhases : List ℚ)
    (orbs : List NavOrb) (he : elements ≠ []) (ho : orbs ≠ []) :
    (animate_background sinF false cur elements linePhases).logged = true ∧
      (animate_background sinF false cur elements linePhases).rescheduled = false ∧
      (animate_orbs sinF cosF false cur orbs).logged = true ∧
      (animate_orbs sinF cosF false cur orbs).rescheduled = false ∧
      (animate_background sinF true cur elements linePhases).rescheduled
        = (cur == "hub") ∧
      (animate_orbs sinF cosF true cur orbs).rescheduled = (cur == "hub") := by
  match elements, he with
  | e :: rest, _ =>
    match orbs, ho with
    | o :: orest, _ =>
      exact ⟨rfl, rfl, rfl, rfl, rfl, rfl⟩

theorem failing_tick_caught_logged_not_rescheduled_witness :
    ([bgDrifter] ≠ ([] : List BgElement)) ∧
      (animate_background (fun _ => 0) false "hub" [bgDrifter] [0]).rescheduled = false :=
  ⟨by simp,
    (failing_tick_caught_logged_not_rescheduled (fun _ => 0) (fun _ => 0) "hub"
      [bgDrifter] [0] [⟨392, 270, 0, 0⟩] (by simp) (by simp)).2.1⟩

/-! ## Exit gesture (C6, C7, C8)

`handle_click` (raspad_main.py:743-757) runs on every `<Button-1>` event:
it stamps `last_activity`; if the event is inside the corner region
(`event.x < 100 and event.y < 100`) it increments `exit_taps`, calls
`graceful_exit` when the counter reaches 3, and then unconditionally
schedules `self.root.after(2000, self.reset_exit_counter)` — a NEW delayed
callback each time, never cancelling the previous ones.
`reset_exit_counter` (raspad_main.py:759-761) sets the counter to 0.

Time is a millisecond clock; the pending `after(2000, ...)` callbacks are a
list of absolute fire times. Advancing the clock to `t` fires every pending
reset whose time has come (each sets `exit_taps` to 0) and removes it from
the queue. `graceful_exit` (raspad_main.py:806-815) quits the mainloop;
after it no further events are delivered, which the `exited` guard models. -/

structure GestureState where
  now : Nat
  last_activity : Nat
  exit_taps : Nat
  resets : List Nat
  exited : Bool
deriving DecidableEq, Repr

/-- `reset_exit_counter` (raspad_main.py:759-761). -/
def reset_exit_counter (st : GestureState) : GestureState :=
  { st with exit_taps := 0 }

/-- `graceful_exit` (raspad_main.py:806-815): stops audio and quits the
tkinter mainloop; observable here as the `exited` flag. -/
def graceful_exit (st : GestureState) : GestureState :=
  { st with exited := true }

/-- Advance the clock to time `t`: every pending
`after(2000, reset_exit_counter)` whose fire time has arrived runs
(each run is `reset_exit_counter`, so if at least one fires the counter is
0) and leaves the queue. -/
def fireDueResets (t : Nat) (st : GestureState) : GestureState :=
  { st with
      now := t,
      exit_taps := if st.resets.any (fun r => decide (r ≤ t)) then 0 else st.exit_taps,
      resets := st.resets.filter (fun r => decide (t < r)) }

/-- `handle_click` (raspad_main.py:743-757) for a pointer-down at time `t`
and canvas coordinates `(x, y)`, after due reset callbacks have fired. The
source order is kept: `last_activity` update, region test, increment,
exit-at-3 check, and then the unconditional `after(2000, ...)` scheduling
(which in the source runs even on the tap that triggers `graceful_exit`). -/
def handle_click (t x y : Nat) (st : GestureState) : GestureState :=
  let st := fireDueResets t st
  if st.exited then st
  else
    let st := { st with last_activity := t }
    if x < 100 ∧ y < 100 then
      let st := { st with exit_taps := st.exit_taps + 1 }
      let st := if st.exit_taps ≥ 3 then graceful_exit st else st
      { st with resets := st.resets ++ [t + 2000] }
    else st

/-- A click trace: `(time, x, y)` triples in nondecreasing time order. -/
def runTaps (taps : List (Nat × Nat × Nat)) (st : GestureState) : GestureState :=
  taps.foldl (fun s e => handle_click e.1 e.2.1 e.2.2 s) st

/-- The state after startup: counter 0, no pending resets. -/
def gestureInit : GestureState :=
  { now := 0, last_activity := 0, exit_taps := 0, resets := [], exited := false }

/-- C6 counterexample: three corner taps at t = 0ms, 1900ms, 3800ms — each
within 2 seconds of the previous one, as in the claim — do NOT trigger
graceful shutdown: the reset scheduled by the first tap is not cancelled or
postponed by the second, so it fires at t = 2000ms and zeroes the counter;
the third tap brings it to 1, not 3. -/
theorem chained_taps_within_two_seconds_do_not_exit :
    (runTaps [(0, 10, 10), (1900, 10, 10), (3800, 10, 10)] gestureInit).exited
        = false ∧
      (runTaps [(0, 10, 10), (1900, 10, 10), (3800, 10, 10)] gestureInit).exit_taps
        = 1 := by
  constructor <;> rfl

/-- C6 amended: a qualifying tap appends a fresh reset 2 seconds out and
cancels nothing, so the counter returns to 0 two seconds after the EARLIEST
outstanding qualifying tap, not the most recent one. Hence three corner
taps all within 2 seconds of the FIRST tap trigger graceful shutdown, while
a tap, a 3-second wait and two more taps do not. -/
theorem exit_gesture_reset_semantics :
    (∀ (st : GestureState) (t x y : Nat), x < 100 → y < 100 →
      (fireDueResets t st).exited = false →
      (handle_click t x y st).resets = (fireDueResets t st).resets ++ [t + 2000]) ∧
    (∀ t0 t1 t2 : Nat, t0 < t1 → t1 < t2 → t2 < t0 + 2000 →
      (runTaps [(t0, 10, 10), (t1, 10, 10), (t2, 10, 10)] gestureInit).exited
        = true) ∧
    (runTaps [(0, 10, 10), (3000, 10, 10), (3100, 10, 10)] gestureInit).exited
      = false := by
  refine ⟨?_, ?_, by rfl⟩
  · intro st t x y hx hy hne
    simp only [handle_click, hne, if_false, Bool.false_eq_true]
    rw [if_pos ⟨hx, hy⟩]
    split <;> rfl
  · intro t0 t1 t2 h01 h12 h20
    have h1 : ¬ t0 + 2000 ≤ t1 := by omega
    have h2a : ¬ t0 + 2000 ≤ t2 := by omega
    have h2b : ¬ t1 + 2000 ≤ t2 := by omega
    simp only [runTaps, List.foldl, handle_click, fireDueResets, gestureInit,
      reset_exit_counter, graceful_exit]
    simp [h1, h2a, h2b]

theorem exit_gesture_reset_semantics_witness :
    ((0 : Nat) < 500 ∧ (500 : Nat) < 1000 ∧ (1000 : Nat) < 0 + 2000) ∧
      (runTaps [(0, 10, 10), (500, 10, 10), (1000, 10, 10)] gestureInit).exited
        = true :=
  ⟨⟨by decide, by decide, by decide⟩,
    exit_gesture_reset_semantics.2.1 0 500 1000 (by decide) (by decide) (by decide)⟩

/-- C7: a pointer-down outside the 100×100 corner region changes nothing
the gesture cares about — the counter and the pending-reset queue are
exactly what advancing the clock alone produces (only `last_activity` is
stamped); and a trace containing no corner tap can never exit nor move the
counter off 0. -/
theorem outside_taps_leave_counter_alone :
    (∀ (st : GestureState) (t x y : Nat), 100 ≤ x ∨ 100 ≤ y →
      (handle_click t x y st).exit_taps = (fireDueResets t st).exit_taps ∧
      (handle_click t x y st).resets = (fireDueResets t st).resets ∧
      (handle_click t x y st).exited = (fireDueResets t st).exited) ∧
    (∀ taps : List (Nat × Nat × Nat),
      (∀ e ∈ taps, 100 ≤ e.2.1 ∨ 100 ≤ e.2.2) →
      (runTaps taps gestureInit).exited = false ∧
        (runTaps taps gestureInit).exit_taps = 0) := by
  have hcomp : ∀ (st : GestureState) (t x y : Nat), 100 ≤ x ∨ 100 ≤ y →
      (handle_click t x y st).exit_taps = (fireDueResets t st).exit_taps ∧
      (handle_click t x y st).resets = (fireDueResets t st).resets ∧
      (handle_click t x y st).exited = (fireDueResets t st).exited := by
    intro st t x y hxy
    have hreg : ¬ (x < 100 ∧ y < 100) := by omega
    simp only [handle_click]
    rw [if_neg hreg]
    split
    · exact ⟨rfl, rfl, rfl⟩
    · exact ⟨rfl, rfl, rfl⟩
  constructor
  · exact hcomp
  · intro taps
    suffices h : ∀ st : GestureState, st.exited = false → st.exit_taps = 0 →
        (∀ e ∈ taps, 100 ≤ e.2.1 ∨ 100 ≤ e.2.2) →
        (runTaps taps st).exited = false ∧ (runTaps taps st).exit_taps = 0 by
      intro htaps
      exact h gestureInit rfl rfl htaps
    induction taps with
    | nil => intro st h1 h2 _; exact ⟨h1, h2⟩
    | cons e rest ih =>
        intro st h1 h2 hall
        have he := hall e (List.mem_cons_self e rest)
        obtain ⟨ha, _hb, hc⟩ := hcomp st e.1 e.2.1 e.2.2 he
        show (runTaps rest (handle_click e.1 e.2.1 e.2.2 st)).exited = false ∧ _
        refine ih _ ?_ ?_ (fun a hmem => hall a (List.mem_cons_of_mem e hmem))
        · rw [hc]
          simpa [fireDueResets] using h1
        · rw [ha]
          simp [fireDueResets, h2]

theorem outside_taps_leave_counter_alone_witness :
    ((100 : Nat) ≤ 512 ∨ (100 : Nat) ≤ 300) ∧
      (runTaps [(50, 512, 300)] gestureInit).exit_taps = 0 :=
  ⟨Or.inl (by decide),
    (outside_taps_leave_counter_alone.2 [(50, 512, 300)]
      (fun e he => by fin_cases he; exact Or.inl (by decide))).2⟩

/-- C8: a corner tap that brings the counter from 2 to 3 triggers graceful
shutdown within that same `handle_click` invocation — `graceful_exit` runs
before the handler even schedules the 2-second reset, so no reset timer is
waited for. -/
theorem third_corner_tap_exits_immediately (st : GestureState) (t x y : Nat)
    (hx : x < 100) (hy : y < 100)
    (hlive : (fireDueResets t st).exited = false)
    (htaps : 2 ≤ (fireDueResets t st).exit_taps) :
    (handle_click t x y st).exited = true := by
  simp only [handle_click, hlive, if_false, Bool.false_eq_true]
  rw [if_pos ⟨hx, hy⟩]
  have h3 : (fireDueResets t st).exit_taps + 1 ≥ 3 := by omega
  simp [h3, graceful_exit]

theorem third_corner_tap_exits_immediately_witness :
    (fireDueResets 100 ⟨0, 0, 2, [], false⟩ : GestureState).exited = false ∧
      (handle_click 100 10 10 ⟨0, 0, 2, [], false⟩).exited = true :=
  ⟨by decide,
    third_corner_tap_exits_immediately ⟨0, 0, 2, [], false⟩ 100 10 10
      (by decide) (by decide) (by decide) (by decide)⟩

/-! ## Audio (`play_sound`, C9)

`play_sound` (raspad_main.py:126-141): returns immediately when
`self.audio_enabled` is false (pygame mixer init failed); otherwise, inside
a `try`, checks `os.path.exists` on `assets/sounds/<name>.wav`; if present,
constructs and plays a `pygame.mixer.Sound` (which may itself raise — then
caught and printed); if absent, prints `Sound not found` and calls
`play_placeholder_beep` (raspad_main.py:143-145), which just prints a beep
line. Every exception is caught by the handler, so none reaches the
caller. The filesystem and the pygame call are boolean oracles. -/

/-- Observable outcome of one `play_sound` call. -/
structure PlayOutcome where
  played : Bool
  beeped : Bool
  loggedMissing : Bool
  loggedError : Bool
  raised : Bool
deriving DecidableEq, Repr

/-- The path convention of `play_sound`. -/
def soundPath (sound_name : String) : String :=
  "assets/sounds/" ++ sound_name ++ ".wav"

/-- `play_sound` (raspad_main.py:126-141). `fileExists` is the
`os.path.exists` oracle; `soundOk` is whether the
`pygame.mixer.Sound(...)`/`play()` pair succeeds when attempted. -/
def play_sound (audio_enabled : Bool) (fileExists : String → Bool)
    (soundOk : Bool) (sound_name : String) : PlayOutcome :=
  if !audio_enabled then
    { played := false, beeped := false, loggedMissing := false,
      loggedError := false, raised := false }
  else if fileExists (soundPath sound_name) then
    if soundOk then
      { played := true, beeped := false, loggedMissing := false,
        loggedError := false, raised := false }
    else
      { played := false, beeped := false, loggedMissing := false,
        loggedError := true, raised := false }
  else
    { played := false, beeped := true, loggedMissing := true,
      loggedError := false, raised := false }

/-- C9 counterexample: when audio initialization failed
(`audio_enabled = false`, the state `setup_audio` leaves behind when pygame
init raises), playing a sound whose file is absent emits NO placeholder
beep and logs nothing — `play_sound` returns at its first line — contrary
to the claim that a missing file always degrades to a logged no-op that
emits the beep. (No exception reaches the caller, as the claim says.) -/
theorem missing_sound_no_beep_when_audio_disabled :
    (play_sound false (fun _ => false) true "happy").beeped = false ∧
      (play_sound false (fun _ => false) true "happy").loggedMissing = false ∧
      (play_sound false (fun _ => false) true "happy").raised = false := by
  exact ⟨rfl, rfl, rfl⟩

/-- C9 amended: provided audio initialization succeeded, playing a sound
whose file is absent logs the missing file and emits the placeholder beep
(and plays nothing); if audio is disabled, `play_sound` is a silent no-op;
and in every case — any audio state, any filesystem, any pygame outcome —
no exception reaches the caller. -/
theorem missing_sound_beeps_and_never_raises
    (fileExists : String → Bool) (soundOk : Bool) (sound_name : String)
    (habsent : fileExists (soundPath sound_name) = false) :
    (play_sound true fileExists soundOk sound_name).beeped = true ∧
      (play_sound true fileExists soundOk sound_name).loggedMissing = true ∧
      (play_sound true fileExists soundOk sound_name).played = false ∧
      (∀ audio_enabled : Bool,
        (play_sound audio_enabled fileExists soundOk sound_name).raised = false) := by
  refine ⟨?_, ?_, ?_, ?_⟩
  · simp [play_sound, habsent]
  · simp [play_sound, habsent]
  · simp [play_sound, habsent]
  · intro audio_enabled
    cases audio_enabled <;> cases soundOk <;> simp [play_sound, habsent]

theorem missing_sound_beeps_and_never_raises_witness :
    ((fun _ => false : String → Bool) (soundPath "happy") = false) ∧
      (play_sound true (fun _ => false) true "happy").beeped = true :=
  ⟨rfl, (missing_sound_beeps_and_never_raises (fun _ => false) true "happy" rfl).1⟩

/-! ## Colour adjustment (`adjust_color`, C10)

`adjust_color` (raspad_main.py:763-771):

    hex_color = hex_color.lstrip('#')
    rgb = tuple(int(hex_color[i:i+2], 16) for i in (0, 2, 4))
    adjusted_rgb = tuple(min(255, max(0, int(c * factor))) for c in rgb)
    return "#{:02x}{:02x}{:02x}".format(*adjusted_rgb)   # via f-string
  except: return hex_color

Python `str` is embedded as `List Char` and the float `factor` as an exact
rational. `int(s, 16)` on the at-most-2-character slices accepts an
optional run of surrounding whitespace, an optional single sign, then a
nonempty run of (ASCII) hex digits, and raises otherwise; `int(x)` on a
float truncates toward zero. Crucially, the `except:` arm returns the
REBOUND local `hex_color` — the input with its leading `'#'` characters
already stripped — not the original argument. -/

def isPySpace (c : Char) : Bool :=
  c = ' ' || c = '\t' || c = '\n' || c = '\r' || c = '\x0b' || c = '\x0c'

def hexDigitVal (c : Char) : Option Nat :=
  if '0' ≤ c ∧ c ≤ '9' then some (c.toNat - '0'.toNat)
  else if 'a' ≤ c ∧ c ≤ 'f' then some (c.toNat - 'a'.toNat + 10)
  else if 'A' ≤ c ∧ c ≤ 'F' then some (c.toNat - 'A'.toNat + 10)
  else none

/-- A nonempty run of hex digits, most significant first; `none` on the
empty string or any non-digit (as `int(s, 16)` raises there). -/
def parsePlainHex : List Char → Option Nat
  | [] => none
  | cs =>
      cs.foldl
        (fun acc c => acc.bind (fun n => (hexDigitVal c).map (fun d => 16 * n + d)))
        (some 0)

/-- Python `int(s, 16)` for the at-most-2-character slices `adjust_color`
takes: strip surrounding whitespace, accept one optional sign, then require
a nonempty run of hex digits. (Base-prefix `0x` and digit-group underscores
need at least 3 characters to parse, so they cannot make a 2-character
slice succeed, and both are rejected here like in Python.) -/
def pyIntHex16 (cs : List Char) : Option Int :=
  let t := ((cs.dropWhile isPySpace).reverse.dropWhile isPySpace).reverse
  match t with
  | [] => none
  | c :: rest =>
      if c = '+' then (parsePlainHex rest).map (fun n => (n : Int))
      else if c = '-' then (parsePlainHex rest).map (fun n => -(n : Int))
      else (parsePlainHex (c :: rest)).map (fun n => (n : Int))

/-- Python `int(q)` on a real value: truncation toward zero. -/
def pyTrunc (q : ℚ) : Int :=
  if 0 ≤ q then ⌊q⌋ else ⌈q⌉

/-- `min(255, max(0, int(c * factor)))`. -/
def adjustChannel (factor : ℚ) (c : Int) : Int :=
  min 255 (max 0 (pyTrunc ((c : ℚ) * factor)))

/-- One channel of the `"{:02x}"` output: two lowercase hex digits. -/
def hexChar (n : Nat) : Char :=
  if n < 10 then Char.ofNat ('0'.toNat + n) else Char.ofNat ('a'.toNat + (n - 10))

def toHex2 (n : Nat) : List Char :=
  [hexChar (n / 16), hexChar (n % 16)]

/-- `adjust_color` (raspad_main.py:763-771). The slices are evaluated left
to right and the first failure jumps to `except`, which returns the
stripped string; collapsing that control flow into one three-way match is
equivalent because the fallback result never depends on which slice
failed. -/
def adjust_color (hex_color : List Char) (factor : ℚ) : List Char :=
  let stripped := hex_color.dropWhile (fun c => c = '#')
  match pyIntHex16 ((stripped.drop 0).take 2), pyIntHex16 ((stripped.drop 2).take 2),
      pyIntHex16 ((stripped.drop 4).take 2) with
  | some r, some g, some b =>
      '#' :: (toHex2 (adjustChannel factor r).toNat ++
        toHex2 (adjustChannel factor g).toNat ++ toHex2 (adjustChannel factor b).toNat)
  | _, _, _ => stripped

theorem hexChar_facts : ∀ d : Nat, d < 16 →
    hexDigitVal (hexChar d) = some d ∧ isPySpace (hexChar d) = false ∧
      hexChar d ≠ '+' ∧ hexChar d ≠ '-' ∧ hexChar d ≠ '#' := by
  decide

theorem parsePlainHex_pair (a b : Char) (d1 d2 : Nat)
    (h1 : hexDigitVal a = some d1) (h2 : hexDigitVal b = some d2) :
    parsePlainHex [a, b] = some (16 * d1 + d2) := by
  simp [parsePlainHex, h1, h2]

/-- Round trip: the two-hex-digit rendering of `n < 256` parses back to
`n`. -/
theorem pyIntHex16_toHex2 (n : Nat) (h : n < 256) :
    pyIntHex16 (toHex2 n) = some (n : Int) := by
  obtain ⟨hv1, hs1, hp1, hm1, _⟩ := hexChar_facts (n / 16) (by omega)
  obtain ⟨hv2, hs2, _, _, _⟩ := hexChar_facts (n % 16) (Nat.mod_lt _ (by norm_num))
  have hpair := parsePlainHex_pair (hexChar (n / 16)) (hexChar (n % 16)) _ _ hv1 hv2
  show pyIntHex16 [hexChar (n / 16), hexChar (n % 16)] = some (n : Int)
  simp only [pyIntHex16, List.dropWhile, hs1, hs2, List.reverse_cons, List.reverse_nil,
    List.nil_append, List.singleton_append]
  rw [if_neg hp1, if_neg hm1, hpair]
  have : 16 * (n / 16) + n % 16 = n := Nat.div_add_mod n 16
  simp [this]

theorem adjust_color_malformed (cs : List Char) (factor : ℚ)
    (hbad :
      pyIntHex16 (((cs.dropWhile (fun c => c = '#')).drop 0).take 2) = none ∨
      pyIntHex16 (((cs.dropWhile (fun c => c = '#')).drop 2).take 2) = none ∨
      pyIntHex16 (((cs.dropWhile (fun c => c = '#')).drop 4).take 2) = none) :
    adjust_color cs factor = cs.dropWhile (fun c => c = '#') := by
  simp only [adjust_color]
  cases h0 : pyIntHex16 (((cs.dropWhile (fun c => c = '#')).drop 0).take 2) with
  | none => rfl
  | some r =>
    cases h1 : pyIntHex16 (((cs.dropWhile (fun c => c = '#')).drop 2).take 2) with
    | none => rfl
    | some g =>
      cases h2 : pyIntHex16 (((cs.dropWhile (fun c => c = '#')).drop 4).take 2) with
      | none => rfl
      | some b =>
          rw [List.drop_zero] at h0
          simp [h0, h1, h2] at hbad

theorem adjust_color_wellformed (r g b : Nat) (factor : ℚ)
    (hr : r < 256) (hg : g < 256) (hb : b < 256) :
    adjust_color ('#' :: (toHex2 r ++ toHex2 g ++ toHex2 b)) factor =
      '#' :: (toHex2 (min 255 (max 0 (pyTrunc ((r : ℚ) * factor)))).toNat ++
        toHex2 (min 255 (max 0 (pyTrunc ((g : ℚ) * factor)))).toNat ++
        toHex2 (min 255 (max 0 (pyTrunc ((b : ℚ) * factor)))).toNat) := by
  have f1 : hexChar (r / 16) ≠ '#' := (hexChar_facts (r / 16) (by omega)).2.2.2.2
  have hstr : (('#' :: (toHex2 r ++ toHex2 g ++ toHex2 b)).dropWhile
      (fun c => c = '#')) = toHex2 r ++ toHex2 g ++ toHex2 b := by
    simp only [toHex2, List.cons_append, List.nil_append, List.dropWhile]
    simp [f1]
  have hs0 : ((toHex2 r ++ toHex2 g ++ toHex2 b).drop 0).take 2 = toHex2 r := by
    simp [toHex2]
  have hs2 : ((toHex2 r ++ toHex2 g ++ toHex2 b).drop 2).take 2 = toHex2 g := by
    simp [toHex2]
  have hs4 : ((toHex2 r ++ toHex2 g ++ toHex2 b).drop 4).take 2 = toHex2 b := by
    simp [toHex2]
  simp only [adjust_color, hstr, hs0, hs2, hs4, pyIntHex16_toHex2 r hr,
    pyIntHex16_toHex2 g hg, pyIntHex16_toHex2 b hb, adjustChannel]
  norm_num

/-- C10 amended: `adjust_color` is total (the embedding is a function; the
bare `except:` catches every parse failure). On a well-formed `'#rrggbb'`
input — rendered here as `'#'` followed by the two-hex-digit forms of
channels `r, g, b < 256` — it returns `'#'` followed by the two-hex-digit
forms of `min(255, max(0, int(channel * factor)))`, each of which lies in
`[0, 255]`. But on a malformed input it does NOT return the input
unchanged: it returns the input with all leading `'#'` characters
stripped, because the `except:` arm returns the rebound local after
`lstrip('#')` already ran. -/
theorem adjust_color_spec (r g b : Nat) (factor : ℚ) (cs : List Char)
    (hr : r < 256) (hg : g < 256) (hb : b < 256)
    (hbad :
      pyIntHex16 (((cs.dropWhile (fun c => c = '#')).drop 0).take 2) = none ∨
      pyIntHex16 (((cs.dropWhile (fun c => c = '#')).drop 2).take 2) = none ∨
      pyIntHex16 (((cs.dropWhile (fun c => c = '#')).drop 4).take 2) = none) :
    adjust_color ('#' :: (toHex2 r ++ toHex2 g ++ toHex2 b)) factor =
      '#' :: (toHex2 (min 255 (max 0 (pyTrunc ((r : ℚ) * factor)))).toNat ++
        toHex2 (min 255 (max 0 (pyTrunc ((g : ℚ) * factor)))).toNat ++
        toHex2 (min 255 (max 0 (pyTrunc ((b : ℚ) * factor)))).toNat) ∧
      (∀ c : Nat, (min 255 (max 0 (pyTrunc ((c : ℚ) * factor)))).toNat ≤ 255) ∧
      adjust_color cs factor = cs.dropWhile (fun c => c = '#') :=
  ⟨adjust_color_wellformed r g b factor hr hg hb,
    fun c => by
      have h1 : min 255 (max 0 (pyTrunc ((c : ℚ) * factor))) ≤ 255 := min_le_left _ _
      omega,
    adjust_color_malformed cs factor hbad⟩

theorem adjust_color_spec_witness :
    ((128 : Nat) < 256) ∧
      adjust_color ("#zz0000".toList) (3 / 2) = "zz0000".toList :=
  ⟨by decide,
    ((adjust_color_spec 128 64 0 (3 / 2) ("#zz0000".toList) (by decide) (by decide)
        (by decide) (Or.inl (by decide))).2.2).trans (by decide)⟩

/-- C10 counterexample: on the malformed input `"#zz0000"` (with any
factor, here `1`), `adjust_color` does not return the input unchanged — it
returns `"zz0000"`, the input with the leading `'#'` stripped, because the
`except:` arm returns the local variable rebound by `lstrip('#')`. -/
theorem adjust_color_malformed_not_unchanged :
    adjust_color ("#zz0000".toList) 1 = "zz0000".toList ∧
      adjust_color ("#zz0000".toList) 1 ≠ "#zz0000".toList := by
  constructor <;> decide
